import Mathlib

/-!
# Verification of the TfL journey-planning agent tools (`agent.py`)

Shallow embedding of the tool layer of the demo agent:

* `get_tfl_api` — header construction and the HTTP client's header
  normalisation, returning the header set actually sent;
* `stop_point_types`, `stop_point_list`, `journey_planner` — the three
  tools, modelled as state-passing functions over the process-wide state
  (the call lock `API_CALL_LOCK` and the reserved `STOP_TYPES_CACHE`);
* a transition system for `n` concurrent invocations of the guarded
  `stop_point_list` section, modelling the mutual-exclusion semantics of
  the asyncio lock used by `async with API_CALL_LOCK`.

JSON objects whose fields are strings (the stop-point records and the
header dictionaries) are modelled as association lists `List (String × String)`;
Python exceptions are modelled with `Except` / explicit outcome types.
-/

/-- A Python dict with string keys and string values (a JSON object of
string fields, or a header dictionary). -/
abbrev PyDict := List (String × String)

/-- The Python exceptions the embedded code can raise. -/
inductive PyError where
  /-- `TypeError` (duplicate keyword argument, or a non-string header value). -/
  | typeError
  /-- `KeyError` (a record is missing an accessed field). -/
  | keyError
  /-- a network-level error raised by the HTTP client. -/
  | netError
deriving DecidableEq, Repr

/-- The outcome of one tool invocation, as observed by the agent framework. -/
inductive ToolOutcome (α : Type) where
  /-- normal return value. -/
  | ok : α → ToolOutcome α
  /-- `raise ModelRetry(msg)` — the Retryable signal. -/
  | modelRetry : String → ToolOutcome α
  /-- an `HTTPStatusError` from `raise_for_status` propagating out (Fatal). -/
  | httpStatusError : Nat → ToolOutcome α
  /-- any other Python exception propagating out. -/
  | pyError : PyError → ToolOutcome α
deriving DecidableEq, Repr

/-- The process-wide module state of `agent.py`: the `API_CALL_LOCK`
(held or free) and the reserved `STOP_TYPES_CACHE` dictionary. -/
structure AgentState where
  lock : Bool
  stopTypesCache : List (String × String)
deriving DecidableEq, Repr

/-- `STOP_TYPES_CACHE = {}` — the module-level cache, initialised empty
and never touched again anywhere in the source. -/
def STOP_TYPES_CACHE : List (String × String) := []

/-- `dict(**kwargs.get("headers", {}), app_key=app_key)` from `get_tfl_api`:
the caller's headers are spread first, then the `app_key` keyword is added.
Python raises `TypeError` ("got multiple values for keyword argument") when
the spread dict already contains the key `app_key`.  Header values are
`Option String` because `app_key` may be `None`. -/
def buildHeaders (callerHeaders : PyDict) (appKey : Option String) :
    Except PyError (List (String × Option String)) :=
  if callerHeaders.any (fun kv => kv.1 = "app_key") then
    .error .typeError
  else
    .ok ((callerHeaders.map (fun kv => (kv.1, some kv.2))) ++ [("app_key", appKey)])

/-- Header normalisation performed by the httpx client on `client.get`:
every header value must be a string; a `None` value is rejected with
`TypeError` ("Header value must be str or bytes").  Returns the header
set actually placed on the outbound request. -/
def clientGet : List (String × Option String) → Except PyError PyDict
  | [] => .ok []
  | (k, some v) :: rest =>
    match clientGet rest with
    | .ok out => .ok ((k, v) :: out)
    | .error e => .error e
  | (_, none) :: _ => .error .typeError

/-- `get_tfl_api`: merges the caller's headers with the injected `app_key`
header (value = the Dependencies bundle's API key) and issues the request
through the shared client.  The result is the header set carried by the
outbound request, or the exception raised before the request was issued. -/
def get_tfl_api (callerHeaders : PyDict) (appKey : Option String) :
    Except PyError PyDict := do
  let hs ← buildHeaders callerHeaders appKey
  clientGet hs

/-- httpx `Response.is_success`: status in the 2xx range.
`raise_for_status` raises `HTTPStatusError` exactly when this is false. -/
def isSuccess (status : Nat) : Bool := 200 ≤ status && status < 300

/-- Whether `needle` occurs at the very start of `hay`. -/
def charsStartWith : List Char → List Char → Bool
  | [], _ => true
  | _ :: _, [] => false
  | c :: cs, d :: ds => c = d && charsStartWith cs ds

/-- Python string containment `needle in hay`: `needle` occurs as a
contiguous substring of `hay`. -/
def charsContain (needle : List Char) : List Char → Bool
  | [] => needle.isEmpty
  | d :: ds => charsStartWith needle (d :: ds) || charsContain needle ds

/-- Python `str.lower()` on the character sequence of a string (the
station names involved are basic latin, where `Char.toLower` agrees with
Python's lower-casing). -/
def pyLower (s : String) : List Char :=
  s.data.map Char.toLower

/-- The filter predicate of the `stop_point_list` comprehension:
`"camden" in stop_point["commonName"].lower() or 'liverpool' in
stop_point["commonName"].lower()` — substring containment in the
lower-cased name. -/
def matchesAllowList (name : String) : Bool :=
  charsContain "camden".data (pyLower name) ||
    charsContain "liverpool".data (pyLower name)

/-- The list comprehension of `stop_point_list`:
`[{"name": sp["commonName"], "naptanId": sp["naptanId"]} for sp in r.json()
if "camden" in sp["commonName"].lower() or 'liverpool' in sp["commonName"].lower()]`.
Field access on a record missing the field raises `KeyError`, aborting the
whole comprehension, exactly as in Python (the `if` clause is evaluated
before the output expression). -/
def filterStopPoints : List PyDict → Except PyError (List PyDict)
  | [] => .ok []
  | sp :: rest =>
    match sp.lookup "commonName" with
    | none => .error .keyError
    | some name =>
      if matchesAllowList name then
        match sp.lookup "naptanId" with
        | none => .error .keyError
        | some nid =>
          match filterStopPoints rest with
          | .error e => .error e
          | .ok out => .ok ([("name", name), ("naptanId", nid)] :: out)
      else filterStopPoints rest

/-- Total version of the comprehension's filter clause (defaulting a
missing `commonName` to `""`, which never matches the allow-list). -/
def keepsRecord (sp : PyDict) : Bool :=
  matchesAllowList ((sp.lookup "commonName").getD "")

/-- Total version of the comprehension's output expression. -/
def projectRecord (sp : PyDict) : PyDict :=
  [("name", (sp.lookup "commonName").getD ""),
   ("naptanId", (sp.lookup "naptanId").getD "")]

/-- Response to the `StopPoint/Type/{stop_point_type}` request: HTTP
status and the body parsed as a JSON array of records. -/
structure StopListResponse where
  status : Nat
  body : List PyDict
deriving DecidableEq, Repr

/-- Response to the `StopPoint/meta/stoptypes` request: HTTP status and
the raw JSON body, kept opaque (the tool returns it verbatim). -/
structure StopTypesResponse where
  status : Nat
  body : String
deriving DecidableEq, Repr

/-- `leg["instruction"]` — the instruction object of one journey leg. -/
structure TflInstruction where
  summary : String
deriving DecidableEq, Repr

/-- One leg of a journey option. -/
structure TflLeg where
  instruction : TflInstruction
deriving DecidableEq, Repr

/-- One journey option: `journey["legs"]`. -/
structure TflJourney where
  legs : List TflLeg
deriving DecidableEq, Repr

/-- Response to the `Journey/JourneyResults/{from}/to/{to}` request:
HTTP status and `r.json()["journeys"]`. -/
structure JourneyResponse where
  status : Nat
  journeys : List TflJourney
deriving DecidableEq, Repr

/-- Lift an `Except` result of body processing to a tool outcome. -/
def toOutcome : Except PyError (List PyDict) → ToolOutcome (List PyDict)
  | .ok l => .ok l
  | .error e => .pyError e

/-- `async with API_CALL_LOCK:` — scoped acquisition of the process-wide
lock: the lock is set while the body runs and released again on every way
out of the block (exceptions are modelled as ordinary outcome values, so
releasing after the body covers the raising paths too). -/
def withLock {α : Type} (body : AgentState → α × AgentState) (st : AgentState) :
    α × AgentState :=
  let res := body { st with lock := true }
  (res.1, { res.2 with lock := false })

/-- The body of the `async with` block of `stop_point_list`: issue the
request, then `try: r.raise_for_status() except: ... if r.status_code == 404:
raise ModelRetry(...)`.  Yields either an exception escaping the block
(`Except.error`) or the response `r`, which the code after the block
consumes.  Note the bare `except` swallows the `HTTPStatusError` for every
non-2xx status other than 404, so execution falls through to the
comprehension in those cases. -/
def stopPointGuardBody (appKey : Option String)
    (remote : Except PyError StopListResponse) :
    Except (ToolOutcome (List PyDict)) StopListResponse :=
  match get_tfl_api [] appKey with
  | .error e => .error (.pyError e)
  | .ok _ =>
    match remote with
    | .error e => .error (.pyError e)
    | .ok r =>
      if isSuccess r.status then .ok r
      else if r.status = 404 then
        .error (.modelRetry "invalid stop point type provided!")
      else .ok r

/-- The `stop_point_list` tool: runs the guarded section under the call
lock, then (outside the lock) evaluates the filtering comprehension on the
response body.  `remote` is the remote API's answer to the request (or a
network-level failure). -/
def stop_point_list (appKey : Option String)
    (remote : Except PyError StopListResponse) (st : AgentState) :
    ToolOutcome (List PyDict) × AgentState :=
  let res := withLock (fun s => (stopPointGuardBody appKey remote, s)) st
  match res.1 with
  | .error out => (out, res.2)
  | .ok r => (toOutcome (filterStopPoints r.body), res.2)

/-- The `stop_point_types` tool: unguarded request to the meta/stoptypes
endpoint, `raise_for_status` (no handler — any non-2xx is fatal), then
`{"stop_point_types": r.json()}`. -/
def stop_point_types (appKey : Option String)
    (remote : Except PyError StopTypesResponse) (st : AgentState) :
    ToolOutcome (List (String × String)) × AgentState :=
  match get_tfl_api [] appKey with
  | .error e => (.pyError e, st)
  | .ok _ =>
    match remote with
    | .error e => (.pyError e, st)
    | .ok r =>
      if isSuccess r.status then (.ok [("stop_point_types", r.body)], st)
      else (.httpStatusError r.status, st)

/-- Python set construction: insert an element unless already present. -/
def setInsert (acc : List String) (s : String) : List String :=
  if s ∈ acc then acc else acc ++ [s]

/-- The contents of a Python set built by iterating over `l`. -/
def pySetOfList (l : List String) : List String :=
  l.foldl setInsert []

/-- The flattening of the `journey_planner` set comprehension:
`leg["instruction"]["summary"] for journey in r.json()["journeys"]
for leg in journey["legs"]`. -/
def allLegSummaries (jr : JourneyResponse) : List String :=
  jr.journeys.flatMap (fun j => j.legs.map (fun leg => leg.instruction.summary))

/-- The `journey_planner` tool: unguarded request to the journey-results
endpoint, `raise_for_status` (no handler — any non-2xx is fatal), then the
set of leg-instruction summaries across all journeys and legs. -/
def journey_planner (appKey : Option String)
    (remote : Except PyError JourneyResponse) (st : AgentState) :
    ToolOutcome (List String) × AgentState :=
  match get_tfl_api [] appKey with
  | .error e => (.pyError e, st)
  | .ok _ =>
    match remote with
    | .error e => (.pyError e, st)
    | .ok r =>
      if isSuccess r.status then (.ok (pySetOfList (allLegSummaries r)), st)
      else (.httpStatusError r.status, st)

/-- Sample stop-point record: Camden Town, as in the spec scenario. -/
def camdenRecord : PyDict :=
  [("commonName", "Camden Town Underground Station"), ("naptanId", "940GZZLUCTN")]

/-- Sample stop-point record: Oxford Circus, as in the spec scenario. -/
def oxfordRecord : PyDict :=
  [("commonName", "Oxford Circus Underground Station"), ("naptanId", "940GZZLUOXC")]

/-- The projection of `camdenRecord` produced by the comprehension. -/
def camdenProjected : PyDict :=
  [("name", "Camden Town Underground Station"), ("naptanId", "940GZZLUCTN")]

/-- Sample journey response: two journey options whose single legs carry
the same instruction summary, as in the spec scenario. -/
def sampleJourneyResponse : JourneyResponse :=
  { status := 200
    journeys :=
      [⟨[⟨⟨"Walk to Camden Town Underground Station"⟩⟩]⟩,
       ⟨[⟨⟨"Walk to Camden Town Underground Station"⟩⟩]⟩] }

/-- Where one of `n` concurrent `stop_point_list` invocations stands with
respect to the guarded section: still waiting on `API_CALL_LOCK`, inside
the `async with` block (in flight), or finished (completed or failed, the
lock released). -/
inductive CallPhase where
  | waiting
  | inFlight
  | done
deriving DecidableEq, Repr

/-- Joint state of `n` concurrent guarded invocations. -/
abbrev SerializerState (n : Nat) := Fin n → CallPhase

/-- The initial state: every invocation is waiting to acquire the lock. -/
def allWaiting (n : Nat) : SerializerState n := fun _ => CallPhase.waiting

/-- Interleaving semantics of the asyncio lock guarding the critical
section of `stop_point_list`: a waiting invocation may acquire the lock
only when no invocation holds it, and an in-flight invocation releases the
lock when it leaves the `async with` block (normally or by raising). -/
inductive SerializerStep {n : Nat} : SerializerState n → SerializerState n → Prop where
  | acquire (s : SerializerState n) (i : Fin n) (hw : s i = CallPhase.waiting)
      (hfree : ∀ j, s j ≠ CallPhase.inFlight) :
      SerializerStep s (Function.update s i CallPhase.inFlight)
  | release (s : SerializerState n) (i : Fin n) (hh : s i = CallPhase.inFlight) :
      SerializerStep s (Function.update s i CallPhase.done)

/-- States reachable from the all-waiting initial state. -/
def SerializerReachable {n : Nat} (s : SerializerState n) : Prop :=
  Relation.ReflTransGen SerializerStep (allWaiting n) s

/-- Remaining work of one invocation, decreasing along every step. -/
def phaseWeight : CallPhase → Nat
  | .waiting => 2
  | .inFlight => 1
  | .done => 0

/-- Total remaining work: a termination measure for the serializer. -/
def serializerMeasure {n : Nat} (s : SerializerState n) : Nat :=
  ∑ i, phaseWeight (s i)

theorem mem_setInsert (acc : List String) (s a : String) :
    a ∈ setInsert acc s ↔ a ∈ acc ∨ a = s := by
  unfold setInsert
  by_cases h : s ∈ acc
  · simp only [if_pos h]
    constructor
    · exact Or.inl
    · rintro (ha | rfl)
      · exact ha
      · exact h
  · simp [if_neg h]

theorem nodup_setInsert (acc : List String) (s : String) (h : acc.Nodup) :
    (setInsert acc s).Nodup := by
  unfold setInsert
  by_cases hs : s ∈ acc
  · simpa [if_pos hs]
  · simp [if_neg hs, List.nodup_append, h, hs]

theorem mem_foldl_setInsert :
    ∀ (l acc : List String) (a : String),
      a ∈ l.foldl setInsert acc ↔ a ∈ acc ∨ a ∈ l := by
  intro l
  induction l with
  | nil => simp
  | cons s t ih =>
    intro acc a
    rw [List.foldl_cons, ih, mem_setInsert]
    constructor
    · rintro ((ha | rfl) | ht)
      · exact Or.inl ha
      · simp
      · simp [ht]
    · rintro (ha | hst)
      · exact Or.inl (Or.inl ha)
      · rcases List.mem_cons.mp hst with rfl | ht
        · exact Or.inl (Or.inr rfl)
        · exact Or.inr ht

theorem nodup_foldl_setInsert :
    ∀ (l acc : List String), acc.Nodup → (l.foldl setInsert acc).Nodup := by
  intro l
  induction l with
  | nil => intro acc h; simpa
  | cons s t ih =>
    intro acc h
    rw [List.foldl_cons]
    exact ih _ (nodup_setInsert acc s h)

theorem mem_pySetOfList (l : List String) (a : String) :
    a ∈ pySetOfList l ↔ a ∈ l := by
  unfold pySetOfList
  rw [mem_foldl_setInsert]
  simp

theorem nodup_pySetOfList (l : List String) : (pySetOfList l).Nodup :=
  nodup_foldl_setInsert l [] List.nodup_nil

theorem filterStopPoints_eq_filter_map :
    ∀ {body out : List PyDict}, filterStopPoints body = .ok out →
      out = (body.filter keepsRecord).map projectRecord := by
  intro body
  induction body with
  | nil =>
    intro out h
    simp only [filterStopPoints, Except.ok.injEq] at h
    simp [h.symm]
  | cons sp rest ih =>
    intro out h
    rw [filterStopPoints] at h
    cases hname : sp.lookup "commonName" with
    | none => rw [hname] at h; exact absurd h (by simp)
    | some name =>
      rw [hname] at h
      dsimp only at h
      cases hm : matchesAllowList name with
      | false =>
        rw [hm] at h
        simp only [Bool.false_eq_true, if_false] at h
        have hk : keepsRecord sp = false := by
          simp [keepsRecord, hname, hm]
        simp only [List.filter_cons, hk, Bool.false_eq_true, if_false]
        exact ih h
      | true =>
        rw [hm] at h
        simp only [if_true] at h
        cases hnid : sp.lookup "naptanId" with
        | none => rw [hnid] at h; exact absurd h (by simp)
        | some nid =>
          rw [hnid] at h
          cases hrec : filterStopPoints rest with
          | error e => rw [hrec] at h; exact absurd h (by simp)
          | ok tailOut =>
            rw [hrec] at h
            simp only [Except.ok.injEq] at h
            have hk : keepsRecord sp = true := by
              simp [keepsRecord, hname, hm]
            have hproj : projectRecord sp = [("name", name), ("naptanId", nid)] := by
              simp [projectRecord, hname, hnid]
            simp only [List.filter_cons, hk, if_true, List.map_cons, hproj]
            rw [← h, ih hrec]

theorem clientGet_all_string (callerHeaders : PyDict) (k : String) :
    clientGet ((callerHeaders.map (fun kv => (kv.1, some kv.2))) ++ [("app_key", some k)]) =
      .ok (callerHeaders ++ [("app_key", k)]) := by
  induction callerHeaders with
  | nil => rfl
  | cons kv rest ih =>
    obtain ⟨a, b⟩ := kv
    show (match clientGet ((rest.map (fun kv => (kv.1, some kv.2))) ++ [("app_key", some k)]) with
      | .ok out => Except.ok ((a, b) :: out)
      | .error e => Except.error e) = Except.ok ((a, b) :: (rest ++ [("app_key", k)]))
    rw [ih]

theorem atMostOne_of_step {n : Nat} {s t : SerializerState n}
    (h : SerializerStep s t)
    (hs : ∀ i j, s i = CallPhase.inFlight → s j = CallPhase.inFlight → i = j) :
    ∀ i j, t i = CallPhase.inFlight → t j = CallPhase.inFlight → i = j := by
  cases h with
  | acquire i hw hfree =>
    intro a b ha hb
    have hai : a = i := by
      by_contra hne
      rw [Function.update_noteq hne] at ha
      exact hfree a ha
    have hbi : b = i := by
      by_contra hne
      rw [Function.update_noteq hne] at hb
      exact hfree b hb
    rw [hai, hbi]
  | release i hh =>
    intro a b ha hb
    have hai : a ≠ i := by
      rintro rfl
      rw [Function.update_same] at ha
      exact CallPhase.noConfusion ha
    have hbi : b ≠ i := by
      rintro rfl
      rw [Function.update_same] at hb
      exact CallPhase.noConfusion hb
    rw [Function.update_noteq hai] at ha
    rw [Function.update_noteq hbi] at hb
    exact hs a b ha hb

theorem serializer_mutex {n : Nat} {s : SerializerState n}
    (h : SerializerReachable s) :
    ∀ i j, s i = CallPhase.inFlight → s j = CallPhase.inFlight → i = j := by
  induction h with
  | refl =>
    intro i j hi _
    exact absurd hi (by simp [allWaiting])
  | tail _ hstep ih => exact atMostOne_of_step hstep ih

theorem serializer_progress {n : Nat} (s : SerializerState n)
    (h : ∃ i, s i ≠ CallPhase.done) : ∃ t, SerializerStep s t := by
  by_cases hf : ∃ j, s j = CallPhase.inFlight
  · obtain ⟨j, hj⟩ := hf
    exact ⟨_, SerializerStep.release s j hj⟩
  · push_neg at hf
    obtain ⟨i, hi⟩ := h
    have hw : s i = CallPhase.waiting := by
      cases hcase : s i
      · rfl
      · exact absurd hcase (hf i)
      · exact absurd hcase hi
    exact ⟨_, SerializerStep.acquire s i hw hf⟩

theorem serializerMeasure_update {n : Nat} (s : SerializerState n) (i : Fin n)
    (v : CallPhase) :
    serializerMeasure (Function.update s i v) + phaseWeight (s i) =
      serializerMeasure s + phaseWeight v := by
  unfold serializerMeasure
  have hcomp : (fun j => phaseWeight (Function.update s i v j)) =
      Function.update (fun j => phaseWeight (s j)) i (phaseWeight v) := by
    funext j
    by_cases hj : j = i
    · subst hj; simp
    · simp [Function.update_noteq hj]
  rw [show (∑ j, phaseWeight (Function.update s i v j)) =
      ∑ j, Function.update (fun j => phaseWeight (s j)) i (phaseWeight v) j from by
        rw [hcomp]]
  rw [Finset.sum_update_of_mem (Finset.mem_univ i)]
  rw [← Finset.sum_erase_add Finset.univ _ (Finset.mem_univ i)]
  have : Finset.univ \ {i} = Finset.univ.erase i := by
    rw [Finset.erase_eq]
  rw [this]
  omega

theorem serializerMeasure_of_step {n : Nat} {s t : SerializerState n}
    (h : SerializerStep s t) : serializerMeasure t < serializerMeasure s := by
  cases h with
  | acquire i hw hfree =>
    have := serializerMeasure_update s i CallPhase.inFlight
    rw [hw] at this
    simp only [phaseWeight] at this
    omega
  | release i hh =>
    have := serializerMeasure_update s i CallPhase.done
    rw [hh] at this
    simp only [phaseWeight] at this
    omega

theorem stop_point_types_state_id (ak : Option String)
    (remote : Except PyError StopTypesResponse) (st : AgentState) :
    (stop_point_types ak remote st).2 = st := by
  unfold stop_point_types
  cases get_tfl_api [] ak with
  | error e => rfl
  | ok hs =>
    cases remote with
    | error e => rfl
    | ok r =>
      by_cases h : isSuccess r.status = true
      · simp [h]
      · simp [h]

theorem journey_planner_state_id (ak : Option String)
    (remote : Except PyError JourneyResponse) (st : AgentState) :
    (journey_planner ak remote st).2 = st := by
  unfold journey_planner
  cases get_tfl_api [] ak with
  | error e => rfl
  | ok hs =>
    cases remote with
    | error e => rfl
    | ok r =>
      by_cases h : isSuccess r.status = true
      · simp [h]
      · simp [h]

/-- Claim C1 (behaviour at the failing input): a 404 response makes
`stop_point_list` raise the Retryable `ModelRetry` signal, as the claim
states; but a 500 response does not raise Fatal — the bare `except`
swallows the `HTTPStatusError` and the tool falls through to the
comprehension, returning a filtered record list. -/
theorem c1_stop_point_list_404_retry_500_swallowed :
    (stop_point_list (some "key") (.ok ⟨404, []⟩) ⟨false, []⟩).1 =
      ToolOutcome.modelRetry "invalid stop point type provided!"
    ∧ (stop_point_list (some "key") (.ok ⟨500, [camdenRecord]⟩) ⟨false, []⟩).1 =
      ToolOutcome.ok [camdenProjected] :=
  ⟨rfl, rfl⟩

/-- Claim C5: on every exit path of the guarded section of
`stop_point_list` — normal completion, the `ModelRetry` raise on 404, a
network failure from the HTTP call, a `KeyError` from the body — the
process-wide call lock is released by the time the call terminates. -/
theorem c5_stop_point_list_releases_lock (ak : Option String)
    (remote : Except PyError StopListResponse) (st : AgentState) :
    ((stop_point_list ak remote st).2).lock = false := by
  unfold stop_point_list withLock
  cases stopPointGuardBody ak remote <;> rfl

/-- Claim C8 (behaviour at the failing input): with the API key absent
(`tfl_api_key = None`), `dict(..., app_key=None)` puts a `None` value in
the header dict and the HTTP client rejects it with `TypeError`, so every
tool call fails instead of executing with an empty `app_key` header. -/
theorem c8_absent_key_crashes :
    get_tfl_api [] none = .error .typeError
    ∧ (stop_point_types none (.ok ⟨200, "raw"⟩) ⟨false, []⟩).1 =
      ToolOutcome.pyError PyError.typeError
    ∧ (stop_point_list none (.ok ⟨200, [camdenRecord]⟩) ⟨false, []⟩).1 =
      ToolOutcome.pyError PyError.typeError
    ∧ (journey_planner none (.ok sampleJourneyResponse) ⟨false, []⟩).1 =
      ToolOutcome.pyError PyError.typeError :=
  ⟨rfl, rfl, rfl, rfl⟩

/-- Claim C9: the reserved `STOP_TYPES_CACHE` is empty, no tool call
changes it, and no tool's result depends on its contents. -/
theorem c9_stop_types_cache_unused :
    STOP_TYPES_CACHE = []
    ∧ (∀ ak remote st, ((stop_point_types ak remote st).2).stopTypesCache = st.stopTypesCache)
    ∧ (∀ ak remote st, ((stop_point_list ak remote st).2).stopTypesCache = st.stopTypesCache)
    ∧ (∀ ak remote st, ((journey_planner ak remote st).2).stopTypesCache = st.stopTypesCache)
    ∧ (∀ ak remote l c₁ c₂,
        (stop_point_types ak remote ⟨l, c₁⟩).1 = (stop_point_types ak remote ⟨l, c₂⟩).1)
    ∧ (∀ ak remote l c₁ c₂,
        (stop_point_list ak remote ⟨l, c₁⟩).1 = (stop_point_list ak remote ⟨l, c₂⟩).1)
    ∧ (∀ ak remote l c₁ c₂,
        (journey_planner ak remote ⟨l, c₁⟩).1 = (journey_planner ak remote ⟨l, c₂⟩).1) := by
  refine ⟨rfl, ?_, ?_, ?_, ?_, ?_, ?_⟩
  · intro ak remote st
    rw [stop_point_types_state_id]
  · intro ak remote st
    unfold stop_point_list withLock
    cases stopPointGuardBody ak remote <;> rfl
  · intro ak remote st
    rw [journey_planner_state_id]
  · intro ak remote l c₁ c₂
    unfold stop_point_types
    cases get_tfl_api [] ak with
    | error e => rfl
    | ok hs =>
      cases remote with
      | error e => rfl
      | ok r =>
        by_cases h : isSuccess r.status = true
        · simp [h]
        · simp [h]
  · intro ak remote l c₁ c₂
    unfold stop_point_list withLock
    cases stopPointGuardBody ak remote <;> rfl
  · intro ak remote l c₁ c₂
    unfold journey_planner
    cases get_tfl_api [] ak with
    | error e => rfl
    | ok hs =>
      cases remote with
      | error e => rfl
      | ok r =>
        by_cases h : isSuccess r.status = true
        · simp [h]
        · simp [h]

/-- Claim C10: a successful `stop_point_list` body evaluation is the
order-preserving projection of the matching subsequence of the raw record
array — the output equals the filtered input mapped through the
projection, and that filtered list is a subsequence of the input. -/
theorem c10_stop_point_list_order_preserving (body out : List PyDict)
    (h : filterStopPoints body = .ok out) :
    out = (body.filter keepsRecord).map projectRecord
    ∧ List.Sublist (body.filter keepsRecord) body :=
  ⟨filterStopPoints_eq_filter_map h, List.filter_sublist body⟩

/-- Witness for C10 at the spec's two-record scenario. -/
theorem c10_stop_point_list_order_preserving_witness :
    [camdenProjected] = ([camdenRecord, oxfordRecord].filter keepsRecord).map projectRecord
    ∧ List.Sublist ([camdenRecord, oxfordRecord].filter keepsRecord)
        [camdenRecord, oxfordRecord] :=
  c10_stop_point_list_order_preserving [camdenRecord, oxfordRecord] [camdenProjected] rfl

/-- Claim C2: a successful `stop_point_list` body evaluation returns
exactly the records whose name matches the camden/liverpool allow-list,
projected to name and naptanId; and on the spec's two-record scenario the
output is exactly the Camden record. -/
theorem c2_stop_point_list_filter_allowlist (body out : List PyDict)
    (h : filterStopPoints body = .ok out) :
    (∀ r, r ∈ out ↔ ∃ sp ∈ body, keepsRecord sp = true ∧ r = projectRecord sp)
    ∧ (stop_point_list (some "key") (.ok ⟨200, [camdenRecord, oxfordRecord]⟩) ⟨false, []⟩).1 =
      ToolOutcome.ok [camdenProjected] := by
  refine ⟨?_, rfl⟩
  intro r
  rw [filterStopPoints_eq_filter_map h]
  simp only [List.mem_map, List.mem_filter]
  constructor
  · rintro ⟨sp, ⟨hmem, hk⟩, rfl⟩
    exact ⟨sp, hmem, hk, rfl⟩
  · rintro ⟨sp, hmem, hk, rfl⟩
    exact ⟨sp, ⟨hmem, hk⟩, rfl⟩

/-- Witness for C2 at the spec's two-record scenario. -/
theorem c2_stop_point_list_filter_allowlist_witness :
    (∀ r, r ∈ [camdenProjected] ↔
      ∃ sp ∈ [camdenRecord, oxfordRecord], keepsRecord sp = true ∧ r = projectRecord sp)
    ∧ (stop_point_list (some "key") (.ok ⟨200, [camdenRecord, oxfordRecord]⟩) ⟨false, []⟩).1 =
      ToolOutcome.ok [camdenProjected] :=
  c2_stop_point_list_filter_allowlist [camdenRecord, oxfordRecord] [camdenProjected] rfl

/-- Claim C3: every record of a successful `stop_point_list` result has
both its name field and its naptanId field populated. -/
theorem c3_stop_point_list_records_complete (body out : List PyDict)
    (h : filterStopPoints body = .ok out) :
    ∀ r ∈ out, (r.lookup "name").isSome ∧ (r.lookup "naptanId").isSome := by
  intro r hr
  rw [filterStopPoints_eq_filter_map h] at hr
  obtain ⟨sp, _, rfl⟩ := List.mem_map.mp hr
  refine ⟨?_, ?_⟩ <;> simp [projectRecord, List.lookup]

/-- Witness for C3 at the spec's two-record scenario. -/
theorem c3_stop_point_list_records_complete_witness :
    (camdenProjected.lookup "name").isSome ∧ (camdenProjected.lookup "naptanId").isSome :=
  c3_stop_point_list_records_complete [camdenRecord, oxfordRecord] [camdenProjected] rfl
    camdenProjected (List.mem_singleton_self camdenProjected)

/-- Claim C4: a successful `journey_planner` call returns the set of
unique leg-instruction summaries flattened across all journey options:
every leg summary of the body appears in the result, everything in the
result is a leg summary of the body, and the result holds no duplicates. -/
theorem c4_journey_planner_unique_leg_set (k : String) (jr : JourneyResponse)
    (st st' : AgentState) (out : List String)
    (h : journey_planner (some k) (.ok jr) st = (.ok out, st')) :
    (∀ s, s ∈ out ↔ s ∈ allLegSummaries jr) ∧ out.Nodup := by
  have hg : get_tfl_api [] (some k) = .ok [("app_key", k)] := rfl
  unfold journey_planner at h
  rw [hg] at h
  dsimp only at h
  cases hs : isSuccess jr.status with
  | false =>
    rw [hs] at h
    simp only [Bool.false_eq_true, if_false, Prod.mk.injEq] at h
    exact absurd h.1 (by simp)
  | true =>
    rw [hs] at h
    simp only [if_true, Prod.mk.injEq] at h
    obtain ⟨h1, _⟩ := h
    have hout : out = pySetOfList (allLegSummaries jr) := by
      injection h1 with hv
      exact hv.symm
    subst hout
    exact ⟨fun s => mem_pySetOfList _ s, nodup_pySetOfList _⟩

/-- Witness for C4 at the spec's duplicate-leg scenario. -/
theorem c4_journey_planner_unique_leg_set_witness :
    (∀ s, s ∈ ["Walk to Camden Town Underground Station"] ↔
      s ∈ allLegSummaries sampleJourneyResponse)
    ∧ List.Nodup ["Walk to Camden Town Underground Station"] :=
  c4_journey_planner_unique_leg_set "key" sampleJourneyResponse ⟨false, []⟩ ⟨false, []⟩
    ["Walk to Camden Town Underground Station"] rfl

/-- Claim C6: in every state reachable under concurrent invocation of `n`
guarded `stop_point_list` calls, at most one call is in flight; any state
with unfinished calls can step (no deadlock), and every step strictly
decreases the termination measure, so all `n` calls eventually complete
with the lock released after each; and the unguarded tools
(`stop_point_types`, `journey_planner`) never touch the lock state. -/
theorem c6_call_serializer_mutex_progress {n : Nat} (s : SerializerState n)
    (h : SerializerReachable s) :
    (∀ i j, s i = CallPhase.inFlight → s j = CallPhase.inFlight → i = j)
    ∧ ((∃ i, s i ≠ CallPhase.done) → ∃ t, SerializerStep s t)
    ∧ (∀ t, SerializerStep s t → serializerMeasure t < serializerMeasure s)
    ∧ (∀ ak remote st, (stop_point_types ak remote st).2 = st)
    ∧ (∀ ak remote st, (journey_planner ak remote st).2 = st) :=
  ⟨serializer_mutex h, serializer_progress s,
   fun _ ht => serializerMeasure_of_step ht,
   stop_point_types_state_id, journey_planner_state_id⟩

/-- Witness for C6 at the initial state of one guarded call. -/
theorem c6_call_serializer_mutex_progress_witness :
    (∀ i j, allWaiting 1 i = CallPhase.inFlight → allWaiting 1 j = CallPhase.inFlight → i = j)
    ∧ ((∃ i, allWaiting 1 i ≠ CallPhase.done) → ∃ t, SerializerStep (allWaiting 1) t)
    ∧ (∀ t, SerializerStep (allWaiting 1) t →
        serializerMeasure t < serializerMeasure (allWaiting 1))
    ∧ (∀ ak remote st, (stop_point_types ak remote st).2 = st)
    ∧ (∀ ak remote st, (journey_planner ak remote st).2 = st) :=
  c6_call_serializer_mutex_progress (allWaiting 1)
    (show Relation.ReflTransGen SerializerStep (allWaiting 1) (allWaiting 1) from
      Relation.ReflTransGen.refl)

/-- Claim C7 fails as stated: when the caller itself supplies an
`app_key` header, `dict(**headers, app_key=...)` raises a duplicate
keyword-argument `TypeError`, so no request is issued at all — the
caller's headers are neither merged nor preserved. -/
theorem c7_header_merge_counterexample :
    ¬ ∃ sent, get_tfl_api [("app_key", "caller-supplied")] (some "injected") =
      Except.ok sent := by
  rintro ⟨sent, h⟩
  have he : get_tfl_api [("app_key", "caller-supplied")] (some "injected") =
      Except.error PyError.typeError := rfl
  rw [he] at h
  exact Except.noConfusion h

/-- Claim C7 as amended: for every Gateway call whose caller-supplied
headers do not themselves contain an `app_key` key, the caller's headers
are merged with — and not overridden by — the injected `app_key` header,
and the resulting request carries both the caller's headers and the
injected key. -/
theorem c7_header_merge_amended (callerHeaders : PyDict) (k : String)
    (h : ∀ kv ∈ callerHeaders, kv.1 ≠ "app_key") :
    get_tfl_api callerHeaders (some k) = .ok (callerHeaders ++ [("app_key", k)])
    ∧ (∀ kv ∈ callerHeaders, kv ∈ callerHeaders ++ [("app_key", k)])
    ∧ ("app_key", k) ∈ callerHeaders ++ [("app_key", k)] := by
  have hany : callerHeaders.any (fun kv => kv.1 = "app_key") = false := by
    rw [List.any_eq_false]
    intro kv hkv
    simp [h kv hkv]
  refine ⟨?_, ?_, ?_⟩
  · unfold get_tfl_api buildHeaders
    rw [hany]
    simp only [Bool.false_eq_true, if_false]
    exact clientGet_all_string callerHeaders k
  · intro kv hkv
    exact List.mem_append_left _ hkv
  · exact List.mem_append_right _ (List.mem_singleton_self _)

/-- Witness for the amended C7 with one caller-supplied header. -/
theorem c7_header_merge_amended_witness :
    get_tfl_api [("accept", "application/json")] (some "k") =
      .ok ([("accept", "application/json")] ++ [("app_key", "k")])
    ∧ (∀ kv ∈ [("accept", "application/json")],
        kv ∈ [("accept", "application/json")] ++ [("app_key", "k")])
    ∧ ("app_key", "k") ∈ [("accept", "application/json")] ++ [("app_key", "k")] :=
  c7_header_merge_amended [("accept", "application/json")] "k" (by decide)
